import Mathlib

/-!
Shallow embedding of the dual-mode camera controller of the historic-city
repository: the CameraManager class (construction, keyboard handling,
switchMode, per-frame update for the DRONE and PERSON modes, resize) and
the camera-related resetCamera operation of SceneManager.  JS numbers are
modelled as real numbers; the THREE.Vector3 and THREE.Quaternion methods
used by the source are embedded directly.  The in-place mutation performed
by Vector3.multiplyScalar is made explicit: each movement branch returns
both the new position and the mutated direction vector, exactly as the
reference code leaves the mutated vector behind for the next branch.
-/

noncomputable section

namespace HistoricCity

/-- THREE.Vector3 restricted to its components. -/
@[ext]
structure Vec3 where
  x : ℝ
  y : ℝ
  z : ℝ

/-- Vector3.add (componentwise sum). -/
def Vec3.add (a b : Vec3) : Vec3 :=
  ⟨a.x + b.x, a.y + b.y, a.z + b.z⟩

/-- Vector3.multiplyScalar: scales every component.  In THREE this mutates
the receiver and returns it; call sites below thread the scaled vector
explicitly to model that mutation. -/
def Vec3.multiplyScalar (v : Vec3) (s : ℝ) : Vec3 :=
  ⟨v.x * s, v.y * s, v.z * s⟩

/-- Vector3.applyAxisAngle specialised to the axis (0,1,0), the only axis the
camera code rotates about: the standard right-handed rotation about the
world vertical axis. -/
def Vec3.applyAxisY (v : Vec3) (angle : ℝ) : Vec3 :=
  ⟨v.x * Real.cos angle + v.z * Real.sin angle, v.y,
   -(v.x * Real.sin angle) + v.z * Real.cos angle⟩

/-- THREE.Quaternion restricted to its components. -/
@[ext]
structure Quat where
  qx : ℝ
  qy : ℝ
  qz : ℝ
  qw : ℝ

/-- Quaternion.setFromEuler for the rotation order YXZ with roll 0, as used
by both camera updates: the THREE formula with the roll terms at zero. -/
def setFromEulerYXZ (pitch yaw : ℝ) : Quat :=
  ⟨Real.sin (pitch / 2) * Real.cos (yaw / 2),
   Real.cos (pitch / 2) * Real.sin (yaw / 2),
   -(Real.sin (pitch / 2) * Real.sin (yaw / 2)),
   Real.cos (pitch / 2) * Real.cos (yaw / 2)⟩

/-- The fields of THREE.PerspectiveCamera the controller reads or writes. -/
@[ext]
structure PerspectiveCamera where
  fov : ℝ
  aspect : ℝ
  near : ℝ
  far : ℝ
  position : Vec3
  quaternion : Quat

/-- The two camera modes. -/
inductive Mode
  | drone
  | person
deriving DecidableEq

/-- The moveState record: one flag per logical action. -/
@[ext]
structure MoveState where
  forward : Bool
  backward : Bool
  left : Bool
  right : Bool
  up : Bool
  down : Bool
  rotateLeft : Bool
  rotateRight : Bool
  lookUp : Bool
  lookDown : Bool

/-- All flags cleared, as in the constructor. -/
def initialMoveState : MoveState :=
  ⟨false, false, false, false, false, false, false, false, false, false⟩

def walkSpeed : ℝ := 5
def runSpeed : ℝ := 10
def flySpeed : ℝ := 8
def rotationSpeed : ℝ := 1.5
def personHeight : ℝ := 1.7

/-- The mutable state of a CameraManager instance.  The activeCamera
reference is modelled by the mode whose rig it points at. -/
@[ext]
structure CameraManager where
  currentMode : Mode
  droneCamera : PerspectiveCamera
  personCamera : PerspectiveCamera
  activeCamera : Mode
  moveState : MoveState
  isRunning : Bool
  droneYaw : ℝ
  dronePitch : ℝ
  personYaw : ℝ
  personPitch : ℝ

/-- Constructor plus init(): both cameras built with fov 75, the window
aspect, near 0.1, far 1000; drone at (0,10,10), person at eye height;
DRONE mode active; all flags cleared; yaw and pitch zero for both rigs. -/
def init (aspect : ℝ) : CameraManager where
  currentMode := Mode.drone
  droneCamera :=
    { fov := 75, aspect := aspect, near := 0.1, far := 1000,
      position := ⟨0, 10, 10⟩, quaternion := ⟨0, 0, 0, 1⟩ }
  personCamera :=
    { fov := 75, aspect := aspect, near := 0.1, far := 1000,
      position := ⟨0, personHeight, 5⟩, quaternion := ⟨0, 0, 0, 1⟩ }
  activeCamera := Mode.drone
  moveState := initialMoveState
  isRunning := false
  droneYaw := 0
  dronePitch := 0
  personYaw := 0
  personPitch := 0

/-- The physical key codes the keyboard listeners react to. -/
inductive KeyCode
  | keyW
  | keyS
  | keyA
  | keyD
  | arrowLeft
  | arrowRight
  | arrowUp
  | arrowDown
  | space
  | shiftLeft
  | controlLeft
deriving DecidableEq

/-- The keydown listener of setupKeyboardControls.  ShiftLeft is
mode-dependent: down-flag in DRONE, run modifier in PERSON; ControlLeft
is a run modifier in PERSON only. -/
def onKeyDown (m : CameraManager) (k : KeyCode) : CameraManager :=
  match k with
  | KeyCode.keyW => { m with moveState := { m.moveState with forward := true } }
  | KeyCode.keyS => { m with moveState := { m.moveState with backward := true } }
  | KeyCode.keyA => { m with moveState := { m.moveState with left := true } }
  | KeyCode.keyD => { m with moveState := { m.moveState with right := true } }
  | KeyCode.arrowLeft => { m with moveState := { m.moveState with rotateLeft := true } }
  | KeyCode.arrowRight => { m with moveState := { m.moveState with rotateRight := true } }
  | KeyCode.arrowUp => { m with moveState := { m.moveState with lookUp := true } }
  | KeyCode.arrowDown => { m with moveState := { m.moveState with lookDown := true } }
  | KeyCode.space => { m with moveState := { m.moveState with up := true } }
  | KeyCode.shiftLeft =>
      if m.currentMode = Mode.drone then
        { m with moveState := { m.moveState with down := true } }
      else
        { m with isRunning := true }
  | KeyCode.controlLeft =>
      if m.currentMode = Mode.person then { m with isRunning := true } else m

/-- The keyup listener of setupKeyboardControls. -/
def onKeyUp (m : CameraManager) (k : KeyCode) : CameraManager :=
  match k with
  | KeyCode.keyW => { m with moveState := { m.moveState with forward := false } }
  | KeyCode.keyS => { m with moveState := { m.moveState with backward := false } }
  | KeyCode.keyA => { m with moveState := { m.moveState with left := false } }
  | KeyCode.keyD => { m with moveState := { m.moveState with right := false } }
  | KeyCode.arrowLeft => { m with moveState := { m.moveState with rotateLeft := false } }
  | KeyCode.arrowRight => { m with moveState := { m.moveState with rotateRight := false } }
  | KeyCode.arrowUp => { m with moveState := { m.moveState with lookUp := false } }
  | KeyCode.arrowDown => { m with moveState := { m.moveState with lookDown := false } }
  | KeyCode.space => { m with moveState := { m.moveState with up := false } }
  | KeyCode.shiftLeft =>
      if m.currentMode = Mode.drone then
        { m with moveState := { m.moveState with down := false } }
      else
        { m with isRunning := false }
  | KeyCode.controlLeft =>
      if m.currentMode = Mode.person then { m with isRunning := false } else m

/-- switchMode: no-op when the target equals the current mode; otherwise
sets currentMode, repoints activeCamera, and on entering PERSON re-snaps
the person camera Y to eye height. -/
def switchMode (m : CameraManager) (mode : Mode) : CameraManager :=
  if mode = m.currentMode then m
  else
    let m1 := { m with currentMode := mode }
    if mode = Mode.drone then
      { m1 with activeCamera := Mode.drone }
    else if mode = Mode.person then
      { m1 with activeCamera := Mode.person,
                personCamera := { m1.personCamera with
                  position := { m1.personCamera.position with y := personHeight } } }
    else m1

/-- position.add(vec.multiplyScalar s), where multiplyScalar mutates vec in
place: returns the new position paired with the mutated vector, which the
reference code leaves behind for any later branch reusing it. -/
def addScaledMut (pos vec : Vec3) (s : ℝ) : Vec3 × Vec3 :=
  (pos.add (vec.multiplyScalar s), vec.multiplyScalar s)

/-- The yaw integration lines duplicated verbatim in both updaters:
rotateLeft adds rotSpeed, rotateRight subtracts it. -/
def integrateYaw (ms : MoveState) (yaw rotSpeed : ℝ) : ℝ :=
  let yaw1 := if ms.rotateLeft then yaw + rotSpeed else yaw
  if ms.rotateRight then yaw1 - rotSpeed else yaw1

/-- The pitch integration and clamp lines duplicated verbatim in both
updaters: lookUp adds rotSpeed, lookDown subtracts it, then the result is
clamped into the interval from -0.4 pi to 0.4 pi. -/
def integratePitch (ms : MoveState) (pitch rotSpeed : ℝ) : ℝ :=
  let pitch1 := if ms.lookUp then pitch + rotSpeed else pitch
  let pitch2 := if ms.lookDown then pitch1 - rotSpeed else pitch1
  max (-(Real.pi * 0.4)) (min (Real.pi * 0.4) pitch2)

/-- The forward, backward, left and right movement block duplicated
verbatim in both updaters.  The direction vectors are derived from yaw
only, and each branch reuses the vector mutated by the previous branch of
the same axis, as the reference code does. -/
def applyPlanarMovement (ms : MoveState) (pos : Vec3) (yaw velocity : ℝ) : Vec3 :=
  let horizontalDirection := Vec3.applyAxisY ⟨0, 0, -1⟩ yaw
  let right := Vec3.applyAxisY ⟨1, 0, 0⟩ yaw
  let s1 := if ms.forward then addScaledMut pos horizontalDirection velocity
            else (pos, horizontalDirection)
  let s2 := if ms.backward then addScaledMut s1.1 s1.2 (-velocity) else s1
  let s3 := if ms.left then addScaledMut s2.1 right (-velocity) else (s2.1, right)
  let s4 := if ms.right then addScaledMut s3.1 s3.2 velocity else s3
  s4.1

/-- The DRONE-only vertical movement block: up and down move along the
world vertical axis, again with the in-place mutation made explicit. -/
def applyVerticalMovement (ms : MoveState) (pos : Vec3) (velocity : ℝ) : Vec3 :=
  let worldUp : Vec3 := ⟨0, 1, 0⟩
  let s5 := if ms.up then addScaledMut pos worldUp velocity else (pos, worldUp)
  let s6 := if ms.down then addScaledMut s5.1 s5.2 (-velocity) else s5
  s6.1

/-- updatePersonCamera: guard on mode, rotation integration, pitch clamp,
movement from yaw only, quaternion rebuild, Y snapped to eye height. -/
def updatePersonCamera (m : CameraManager) (deltaTime : ℝ) : CameraManager :=
  if m.currentMode ≠ Mode.person then m
  else
    let speed := if m.isRunning then runSpeed else walkSpeed
    let velocity := speed * deltaTime
    let rotSpeed := rotationSpeed * deltaTime
    let yaw2 := integrateYaw m.moveState m.personYaw rotSpeed
    let pitch3 := integratePitch m.moveState m.personPitch rotSpeed
    let moved := applyPlanarMovement m.moveState m.personCamera.position yaw2 velocity
    let pos := { moved with y := personHeight }
    { m with
        personYaw := yaw2, personPitch := pitch3,
        personCamera := { m.personCamera with
          position := pos, quaternion := setFromEulerYXZ pitch3 yaw2 } }

/-- updateDroneCamera: guard on mode, rotation integration, pitch clamp,
horizontal movement from yaw only, world-vertical up and down movement,
quaternion rebuild; no Y snap. -/
def updateDroneCamera (m : CameraManager) (deltaTime : ℝ) : CameraManager :=
  if m.currentMode ≠ Mode.drone then m
  else
    let speed := if m.isRunning then flySpeed * 2 else flySpeed
    let velocity := speed * deltaTime
    let rotSpeed := rotationSpeed * deltaTime
    let yaw2 := integrateYaw m.moveState m.droneYaw rotSpeed
    let pitch3 := integratePitch m.moveState m.dronePitch rotSpeed
    let moved := applyPlanarMovement m.moveState m.droneCamera.position yaw2 velocity
    let pos := applyVerticalMovement m.moveState moved velocity
    { m with
        droneYaw := yaw2, dronePitch := pitch3,
        droneCamera := { m.droneCamera with
          position := pos, quaternion := setFromEulerYXZ pitch3 yaw2 } }

/-- update: dispatches to the updater of the current mode. -/
def update (m : CameraManager) (deltaTime : ℝ) : CameraManager :=
  if m.currentMode = Mode.drone then updateDroneCamera m deltaTime
  else if m.currentMode = Mode.person then updatePersonCamera m deltaTime
  else m

/-- resize: both rigs receive the new aspect, whichever mode is active. -/
def resize (m : CameraManager) (width height : ℝ) : CameraManager :=
  let aspect := width / height
  { m with
      droneCamera := { m.droneCamera with aspect := aspect },
      personCamera := { m.personCamera with aspect := aspect } }

/-- SceneManager.resetCamera: resets the rig of the current mode to its
default position with yaw and pitch zero and rebuilds its quaternion from
the zeroed Euler angles. -/
def resetCamera (m : CameraManager) : CameraManager :=
  if m.currentMode = Mode.drone then
    { m with
        droneCamera := { m.droneCamera with
          position := ⟨0, 10, 10⟩, quaternion := setFromEulerYXZ 0 0 },
        droneYaw := 0, dronePitch := 0 }
  else if m.currentMode = Mode.person then
    { m with
        personCamera := { m.personCamera with
          position := ⟨0, personHeight, 5⟩, quaternion := setFromEulerYXZ 0 0 },
        personYaw := 0, personPitch := 0 }
  else m

/-- getActiveCamera: the rig the active-camera reference points at. -/
def getActiveCamera (m : CameraManager) : PerspectiveCamera :=
  match m.activeCamera with
  | Mode.drone => m.droneCamera
  | Mode.person => m.personCamera

/-- One externally triggered operation on the controller. -/
inductive Event
  | update (deltaTime : ℝ)
  | switchMode (mode : Mode)
  | keyDown (k : KeyCode)
  | keyUp (k : KeyCode)
  | resize (width height : ℝ)
  | reset

/-- Apply one event to the controller state. -/
def step (m : CameraManager) : Event → CameraManager
  | Event.update dt => HistoricCity.update m dt
  | Event.switchMode mode => HistoricCity.switchMode m mode
  | Event.keyDown k => onKeyDown m k
  | Event.keyUp k => onKeyUp m k
  | Event.resize w h => HistoricCity.resize m w h
  | Event.reset => resetCamera m

/-- The states reachable from a freshly constructed controller by any
sequence of events. -/
inductive Reachable : CameraManager → Prop
  | start (aspect : ℝ) : Reachable (init aspect)
  | next (m : CameraManager) (e : Event) : Reachable m → Reachable (step m e)

/-- The pitch clamp interval of both updaters. -/
def pitchInRange (p : ℝ) : Prop :=
  -(Real.pi * 0.4) ≤ p ∧ p ≤ Real.pi * 0.4

/-! Basic lemmas about the clamp and the shape of each operation. -/

lemma pitchInRange_clamp (x : ℝ) :
    pitchInRange (max (-(Real.pi * 0.4)) (min (Real.pi * 0.4) x)) := by
  have hpi : (0:ℝ) ≤ Real.pi * 0.4 := by positivity
  exact ⟨le_max_left _ _, max_le (by linarith) (min_le_left _ _)⟩

lemma pitchInRange_zero : pitchInRange 0 := by
  have hpi : (0:ℝ) ≤ Real.pi * 0.4 := by positivity
  exact ⟨by linarith, hpi⟩

lemma integratePitch_mem (ms : MoveState) (p r : ℝ) :
    pitchInRange (integratePitch ms p r) :=
  pitchInRange_clamp _

lemma update_drone (m : CameraManager) (dt : ℝ) (h : m.currentMode = Mode.drone) :
    update m dt = updateDroneCamera m dt := by
  simp [update, h]

lemma update_person (m : CameraManager) (dt : ℝ) (h : m.currentMode = Mode.person) :
    update m dt = updatePersonCamera m dt := by
  simp [update, h]

lemma updateDroneCamera_eq (m : CameraManager) (dt : ℝ) (h : m.currentMode = Mode.drone) :
    updateDroneCamera m dt =
      { m with
          droneYaw := integrateYaw m.moveState m.droneYaw (rotationSpeed * dt),
          dronePitch := integratePitch m.moveState m.dronePitch (rotationSpeed * dt),
          droneCamera := { m.droneCamera with
            position := applyVerticalMovement m.moveState
              (applyPlanarMovement m.moveState m.droneCamera.position
                (integrateYaw m.moveState m.droneYaw (rotationSpeed * dt))
                ((if m.isRunning then flySpeed * 2 else flySpeed) * dt))
              ((if m.isRunning then flySpeed * 2 else flySpeed) * dt),
            quaternion := setFromEulerYXZ
              (integratePitch m.moveState m.dronePitch (rotationSpeed * dt))
              (integrateYaw m.moveState m.droneYaw (rotationSpeed * dt)) } } := by
  simp [updateDroneCamera, h]

lemma updatePersonCamera_eq (m : CameraManager) (dt : ℝ) (h : m.currentMode = Mode.person) :
    updatePersonCamera m dt =
      { m with
          personYaw := integrateYaw m.moveState m.personYaw (rotationSpeed * dt),
          personPitch := integratePitch m.moveState m.personPitch (rotationSpeed * dt),
          personCamera := { m.personCamera with
            position := { applyPlanarMovement m.moveState m.personCamera.position
                (integrateYaw m.moveState m.personYaw (rotationSpeed * dt))
                ((if m.isRunning then runSpeed else walkSpeed) * dt)
              with y := personHeight },
            quaternion := setFromEulerYXZ
              (integratePitch m.moveState m.personPitch (rotationSpeed * dt))
              (integrateYaw m.moveState m.personYaw (rotationSpeed * dt)) } } := by
  simp [updatePersonCamera, h]

lemma switchMode_self (m : CameraManager) (mode : Mode) (h : mode = m.currentMode) :
    switchMode m mode = m := by
  simp [switchMode, h]

lemma switchMode_drone (m : CameraManager) (h : ¬ Mode.drone = m.currentMode) :
    switchMode m Mode.drone =
      { m with currentMode := Mode.drone, activeCamera := Mode.drone } := by
  simp [switchMode, h]

lemma switchMode_person (m : CameraManager) (h : ¬ Mode.person = m.currentMode) :
    switchMode m Mode.person =
      { m with currentMode := Mode.person, activeCamera := Mode.person,
               personCamera := { m.personCamera with
                 position := { m.personCamera.position with y := personHeight } } } := by
  simp [switchMode, h]

/-- Invariant of every reachable controller state: the person camera sits
at eye height, the active-camera reference agrees with the current mode,
and both pitches are inside the clamp interval. -/
theorem reachable_props (m : CameraManager) (h : Reachable m) :
    m.personCamera.position.y = personHeight ∧
    m.activeCamera = m.currentMode ∧
    pitchInRange m.dronePitch ∧ pitchInRange m.personPitch := by
  induction h with
  | start a => exact ⟨rfl, rfl, pitchInRange_zero, pitchInRange_zero⟩
  | next m e hr ih =>
      obtain ⟨hy, ha, hdp, hpp⟩ := ih
      cases e with
      | update dt =>
          rcases hm : m.currentMode with _ | _
          · simp only [step]
            rw [update_drone m dt hm, updateDroneCamera_eq m dt hm]
            exact ⟨hy, ha, integratePitch_mem _ _ _, hpp⟩
          · simp only [step]
            rw [update_person m dt hm, updatePersonCamera_eq m dt hm]
            exact ⟨rfl, ha, hdp, integratePitch_mem _ _ _⟩
      | switchMode mode =>
          simp only [step]
          by_cases h1 : mode = m.currentMode
          · rw [switchMode_self m mode h1]
            exact ⟨hy, ha, hdp, hpp⟩
          · rcases mode with _ | _
            · rw [switchMode_drone m h1]
              exact ⟨hy, rfl, hdp, hpp⟩
            · rw [switchMode_person m h1]
              exact ⟨rfl, rfl, hdp, hpp⟩
      | keyDown k =>
          simp only [step]
          rcases k <;> simp only [onKeyDown] <;>
            first
              | exact ⟨hy, ha, hdp, hpp⟩
              | split_ifs <;> exact ⟨hy, ha, hdp, hpp⟩
      | keyUp k =>
          simp only [step]
          rcases k <;> simp only [onKeyUp] <;>
            first
              | exact ⟨hy, ha, hdp, hpp⟩
              | split_ifs <;> exact ⟨hy, ha, hdp, hpp⟩
      | resize w hh => exact ⟨hy, ha, hdp, hpp⟩
      | reset =>
          simp only [step]
          rcases hm : m.currentMode with _ | _
          · unfold resetCamera
            rw [if_pos hm]
            exact ⟨hy, ha, pitchInRange_zero, hpp⟩
          · unfold resetCamera
            rw [if_neg (by rw [hm]; exact (by decide)), if_pos hm]
            exact ⟨rfl, ha, hdp, pitchInRange_zero⟩

/-- C1: in every state reachable by update, switchMode and reset calls (or
any other operation) from the constructed controller, both the DRONE pitch
and the PERSON pitch lie in the clamp interval from -0.4 pi to 0.4 pi, the
pitches produced by a further update lie in it as well, and the quaternion
an update writes to the active camera is derived from exactly the clamped
pitch and the integrated yaw of the updated state. -/
theorem pitch_clamp_invariant (m : CameraManager) (h : Reachable m) (dt : ℝ) :
    pitchInRange m.dronePitch ∧ pitchInRange m.personPitch ∧
    pitchInRange (update m dt).dronePitch ∧
    pitchInRange (update m dt).personPitch ∧
    (m.currentMode = Mode.drone →
      (update m dt).droneCamera.quaternion =
        setFromEulerYXZ (update m dt).dronePitch (update m dt).droneYaw) ∧
    (m.currentMode = Mode.person →
      (update m dt).personCamera.quaternion =
        setFromEulerYXZ (update m dt).personPitch (update m dt).personYaw) := by
  obtain ⟨-, -, hdp, hpp⟩ := reachable_props m h
  obtain ⟨-, -, hdp2, hpp2⟩ := reachable_props _ (Reachable.next m (Event.update dt) h)
  refine ⟨hdp, hpp, hdp2, hpp2, ?_, ?_⟩
  · intro hm
    rw [update_drone m dt hm, updateDroneCamera_eq m dt hm]
  · intro hm
    rw [update_person m dt hm, updatePersonCamera_eq m dt hm]

/-- Witness for C1 at the freshly constructed controller with aspect 1. -/
theorem pitch_clamp_invariant_witness :
    pitchInRange (init 1).dronePitch ∧ pitchInRange (init 1).personPitch ∧
    pitchInRange (update (init 1) 1).dronePitch ∧
    pitchInRange (update (init 1) 1).personPitch ∧
    ((init 1).currentMode = Mode.drone →
      (update (init 1) 1).droneCamera.quaternion =
        setFromEulerYXZ (update (init 1) 1).dronePitch (update (init 1) 1).droneYaw) ∧
    ((init 1).currentMode = Mode.person →
      (update (init 1) 1).personCamera.quaternion =
        setFromEulerYXZ (update (init 1) 1).personPitch (update (init 1) 1).personYaw) :=
  pitch_clamp_invariant (init 1) (Reachable.start 1) 1

/-- C5: after every update in PERSON mode the person camera Y equals the
eye height constant exactly, and a switchMode that enters PERSON re-snaps
the person camera Y to eye height. -/
theorem person_eye_height (m n : CameraManager) (dt : ℝ)
    (hm : m.currentMode = Mode.person) (hn : ¬ n.currentMode = Mode.person) :
    (update m dt).personCamera.position.y = personHeight ∧
    (switchMode n Mode.person).personCamera.position.y = personHeight := by
  constructor
  · rw [update_person m dt hm, updatePersonCamera_eq m dt hm]
  · rw [switchMode_person n (fun hh => hn hh.symm)]

/-- Witness for C5: enter PERSON from the fresh controller, then update. -/
theorem person_eye_height_witness :
    (update (switchMode (init 1) Mode.person) 1).personCamera.position.y = personHeight ∧
    (switchMode (init 1) Mode.person).personCamera.position.y = personHeight :=
  person_eye_height (switchMode (init 1) Mode.person) (init 1) 1 rfl (by decide)

/-- C8: resetCamera with DRONE active restores the drone rig to position
(0,10,10) with yaw and pitch zero; with PERSON active it restores the
person rig to (0, eye height, 5) with yaw and pitch zero; in both cases
the quaternion is rebuilt from the zeroed Euler angles. -/
theorem reset_defaults (md mp : CameraManager)
    (hd : md.currentMode = Mode.drone) (hp : mp.currentMode = Mode.person) :
    (resetCamera md).droneCamera.position = ⟨0, 10, 10⟩ ∧
    (resetCamera md).droneYaw = 0 ∧ (resetCamera md).dronePitch = 0 ∧
    (resetCamera md).droneCamera.quaternion = setFromEulerYXZ 0 0 ∧
    (resetCamera mp).personCamera.position = ⟨0, personHeight, 5⟩ ∧
    (resetCamera mp).personYaw = 0 ∧ (resetCamera mp).personPitch = 0 ∧
    (resetCamera mp).personCamera.quaternion = setFromEulerYXZ 0 0 := by
  unfold resetCamera
  rw [if_pos hd, if_neg (by rw [hp]; exact (by decide)), if_pos hp]
  exact ⟨rfl, rfl, rfl, rfl, rfl, rfl, rfl, rfl⟩

/-- Witness for C8: fresh controller for DRONE and a switched one for
PERSON. -/
theorem reset_defaults_witness :
    (resetCamera (init 1)).droneCamera.position = ⟨0, 10, 10⟩ ∧
    (resetCamera (init 1)).droneYaw = 0 ∧ (resetCamera (init 1)).dronePitch = 0 ∧
    (resetCamera (init 1)).droneCamera.quaternion = setFromEulerYXZ 0 0 ∧
    (resetCamera (switchMode (init 1) Mode.person)).personCamera.position =
      ⟨0, personHeight, 5⟩ ∧
    (resetCamera (switchMode (init 1) Mode.person)).personYaw = 0 ∧
    (resetCamera (switchMode (init 1) Mode.person)).personPitch = 0 ∧
    (resetCamera (switchMode (init 1) Mode.person)).personCamera.quaternion =
      setFromEulerYXZ 0 0 :=
  reset_defaults (init 1) (switchMode (init 1) Mode.person) rfl rfl

lemma switchMode_aspect (m : CameraManager) (mode : Mode) :
    (switchMode m mode).droneCamera.aspect = m.droneCamera.aspect ∧
    (switchMode m mode).personCamera.aspect = m.personCamera.aspect := by
  unfold switchMode
  split_ifs <;> exact ⟨rfl, rfl⟩

/-- C9: resize writes width/height to the aspect of both rigs whatever the
active mode, and after resize(800,600), a switchMode and resize(1600,900)
both rigs carry aspect 16:9. -/
theorem resize_both_rigs (m : CameraManager) (w h : ℝ) (mode : Mode) :
    (resize m w h).droneCamera.aspect = w / h ∧
    (resize m w h).personCamera.aspect = w / h ∧
    (resize (switchMode (resize m 800 600) mode) 1600 900).droneCamera.aspect = 16 / 9 ∧
    (resize (switchMode (resize m 800 600) mode) 1600 900).personCamera.aspect = 16 / 9 := by
  refine ⟨rfl, rfl, ?_, ?_⟩ <;>
    · show (1600 : ℝ) / 900 = 16 / 9
      norm_num

/-- Witness for C9 with a switch to PERSON between the two resizes. -/
theorem resize_both_rigs_witness :
    (resize (init 1) 800 600).droneCamera.aspect = 800 / 600 ∧
    (resize (init 1) 800 600).personCamera.aspect = 800 / 600 ∧
    ((resize (switchMode (resize (init 1) 800 600) Mode.person) 1600
        900).droneCamera.aspect = 16 / 9) ∧
    ((resize (switchMode (resize (init 1) 800 600) Mode.person) 1600
        900).personCamera.aspect = 16 / 9) :=
  resize_both_rigs (init 1) 800 600 Mode.person

/-- C10: update leaves the inactive rig untouched: in DRONE mode the
person camera, yaw and pitch are unchanged, in PERSON mode the drone
camera, yaw and pitch are unchanged. -/
theorem update_inactive_untouched (md mp : CameraManager) (dt : ℝ)
    (hd : md.currentMode = Mode.drone) (hp : mp.currentMode = Mode.person) :
    (update md dt).personCamera = md.personCamera ∧
    (update md dt).personYaw = md.personYaw ∧
    (update md dt).personPitch = md.personPitch ∧
    (update mp dt).droneCamera = mp.droneCamera ∧
    (update mp dt).droneYaw = mp.droneYaw ∧
    (update mp dt).dronePitch = mp.dronePitch := by
  rw [update_drone md dt hd, updateDroneCamera_eq md dt hd,
      update_person mp dt hp, updatePersonCamera_eq mp dt hp]
  exact ⟨rfl, rfl, rfl, rfl, rfl, rfl⟩

/-- Witness for C10: fresh controller for DRONE and a switched one for
PERSON. -/
theorem update_inactive_untouched_witness :
    (update (init 1) 1).personCamera = (init 1).personCamera ∧
    (update (init 1) 1).personYaw = (init 1).personYaw ∧
    (update (init 1) 1).personPitch = (init 1).personPitch ∧
    (update (switchMode (init 1) Mode.person) 1).droneCamera =
      (switchMode (init 1) Mode.person).droneCamera ∧
    (update (switchMode (init 1) Mode.person) 1).droneYaw =
      (switchMode (init 1) Mode.person).droneYaw ∧
    (update (switchMode (init 1) Mode.person) 1).dronePitch =
      (switchMode (init 1) Mode.person).dronePitch :=
  update_inactive_untouched (init 1) (switchMode (init 1) Mode.person) 1 rfl rfl

lemma applyPlanarMovement_id (ms : MoveState) (pos : Vec3) (yaw v : ℝ)
    (hf : ms.forward = false) (hb : ms.backward = false)
    (hl : ms.left = false) (hr : ms.right = false) :
    applyPlanarMovement ms pos yaw v = pos := by
  simp [applyPlanarMovement, hf, hb, hl, hr]

lemma applyVerticalMovement_id (ms : MoveState) (pos : Vec3) (v : ℝ)
    (hu : ms.up = false) (hdn : ms.down = false) :
    applyVerticalMovement ms pos v = pos := by
  simp [applyVerticalMovement, hu, hdn]

/-- A copy of a state with both pitch values replaced; the positions an
update produces never depend on them. -/
def withPitches (m : CameraManager) (p q : ℝ) : CameraManager :=
  { m with dronePitch := p, personPitch := q }

/-- C3: an update with every movement flag clear (whatever the look flags
do) leaves the camera positions unchanged except for the PERSON Y snap to
eye height, and the positions an update produces are independent of the
stored pitches: movement is derived from yaw only. -/
theorem look_does_not_move (m n : CameraManager) (dt p q : ℝ)
    (hf : m.moveState.forward = false) (hb : m.moveState.backward = false)
    (hl : m.moveState.left = false) (hr : m.moveState.right = false)
    (hu : m.moveState.up = false) (hdn : m.moveState.down = false) :
    (update m dt).droneCamera.position = m.droneCamera.position ∧
    (update m dt).personCamera.position =
      (if m.currentMode = Mode.person then
        { m.personCamera.position with y := personHeight }
      else m.personCamera.position) ∧
    (update (withPitches n p q) dt).droneCamera.position =
      (update n dt).droneCamera.position ∧
    (update (withPitches n p q) dt).personCamera.position =
      (update n dt).personCamera.position := by
  refine ⟨?_, ?_, ?_, ?_⟩
  · rcases hm : m.currentMode with _ | _
    · rw [update_drone m dt hm]
      simp [updateDroneCamera_eq m dt hm,
            applyPlanarMovement_id _ _ _ _ hf hb hl hr,
            applyVerticalMovement_id _ _ _ hu hdn]
    · rw [update_person m dt hm]
      simp [updatePersonCamera_eq m dt hm]
  · rcases hm : m.currentMode with _ | _
    · rw [update_drone m dt hm]
      simp [updateDroneCamera_eq m dt hm, hm]
    · rw [update_person m dt hm]
      simp [updatePersonCamera_eq m dt hm, hm,
            applyPlanarMovement_id _ _ _ _ hf hb hl hr]
  · rcases hn : n.currentMode with _ | _
    · rw [update_drone n dt hn, update_drone (withPitches n p q) dt hn,
          updateDroneCamera_eq n dt hn, updateDroneCamera_eq (withPitches n p q) dt hn]
      rfl
    · rw [update_person n dt hn, update_person (withPitches n p q) dt hn,
          updatePersonCamera_eq n dt hn, updatePersonCamera_eq (withPitches n p q) dt hn]
      rfl
  · rcases hn : n.currentMode with _ | _
    · rw [update_drone n dt hn, update_drone (withPitches n p q) dt hn,
          updateDroneCamera_eq n dt hn, updateDroneCamera_eq (withPitches n p q) dt hn]
      rfl
    · rw [update_person n dt hn, update_person (withPitches n p q) dt hn,
          updatePersonCamera_eq n dt hn, updatePersonCamera_eq (withPitches n p q) dt hn]
      rfl

/-- Witness for C3 at the fresh controller, where every flag is clear. -/
theorem look_does_not_move_witness :
    (update (init 1) 1).droneCamera.position = (init 1).droneCamera.position ∧
    (update (init 1) 1).personCamera.position =
      (if (init 1).currentMode = Mode.person then
        { (init 1).personCamera.position with y := personHeight }
      else (init 1).personCamera.position) ∧
    (update (withPitches (init 1) 0 0) 1).droneCamera.position =
      (update (init 1) 1).droneCamera.position ∧
    (update (withPitches (init 1) 0 0) 1).personCamera.position =
      (update (init 1) 1).personCamera.position :=
  look_does_not_move (init 1) (init 1) 1 0 0 rfl rfl rfl rfl rfl rfl

/-- C4: from any reachable state in mode a, switching to a different mode
b and straight back restores the whole state exactly, and switching to the
mode already active changes nothing. -/
theorem switch_roundtrip (m : CameraManager) (h : Reachable m) (a b : Mode)
    (hab : ¬ a = b) (hcur : m.currentMode = a) :
    switchMode (switchMode m b) a = m ∧ switchMode m a = m := by
  obtain ⟨hy, ha, -, -⟩ := reachable_props m h
  refine ⟨?_, switchMode_self m a hcur.symm⟩
  obtain ⟨cm, dc, pc, ac, ms, ir, dy, dp, py, pp⟩ := m
  have hy2 : pc.position.y = personHeight := hy
  have ha2 : ac = cm := ha
  rcases a with _ | _ <;> rcases b with _ | _
  · exact absurd rfl hab
  · have hc2 : cm = Mode.drone := hcur
    subst ha2
    subst hc2
    simp [switchMode]
    rw [← hy2]
  · have hc2 : cm = Mode.person := hcur
    subst ha2
    subst hc2
    simp [switchMode]
    rw [← hy2]
  · exact absurd rfl hab

/-- Witness for C4: round trip DRONE to PERSON to DRONE on the fresh
controller. -/
theorem switch_roundtrip_witness :
    (switchMode (switchMode (init 1) Mode.person) Mode.drone = init 1 ∧
      switchMode (init 1) Mode.drone = init 1) :=
  switch_roundtrip (init 1) (Reachable.start 1) Mode.drone Mode.person (by decide) rfl

/-- The moveState flag a key toggles, keyed by the DRONE-mode meaning for
ShiftLeft; ControlLeft toggles no moveState flag. -/
def getFlag (ms : MoveState) : KeyCode → Bool
  | KeyCode.keyW => ms.forward
  | KeyCode.keyS => ms.backward
  | KeyCode.keyA => ms.left
  | KeyCode.keyD => ms.right
  | KeyCode.arrowLeft => ms.rotateLeft
  | KeyCode.arrowRight => ms.rotateRight
  | KeyCode.arrowUp => ms.lookUp
  | KeyCode.arrowDown => ms.lookDown
  | KeyCode.space => ms.up
  | KeyCode.shiftLeft => ms.down
  | KeyCode.controlLeft => false

/-- C6 counterexample: press ShiftLeft with DRONE active (setting the down
flag), switch to PERSON, release ShiftLeft: the keyup is handled by the
PERSON branch, which clears the run modifier instead, and the down flag
stays set, so the flag set by the keydown is not cleared by the matching
keyup when the mode changed in between. -/
theorem shift_down_flag_stuck :
    (step (step (step (init 1) (Event.keyDown KeyCode.shiftLeft))
        (Event.switchMode Mode.person)) (Event.keyUp KeyCode.shiftLeft)).moveState.down
      = true ∧
    (step (step (step (init 1) (Event.keyDown KeyCode.shiftLeft))
        (Event.switchMode Mode.person)) (Event.keyUp KeyCode.shiftLeft)).isRunning
      = false :=
  ⟨rfl, rfl⟩

lemma switchMode_moveState (m : CameraManager) (mode : Mode) :
    (switchMode m mode).moveState = m.moveState := by
  unfold switchMode
  split_ifs <;> rfl

lemma foldl_switchMode_moveState (ms : List Mode) (m : CameraManager) :
    (List.foldl switchMode m ms).moveState = m.moveState := by
  induction ms generalizing m with
  | nil => rfl
  | cons a t iht => rw [List.foldl_cons, iht, switchMode_moveState]

lemma onKeyDown_sets (s : CameraManager) (k : KeyCode)
    (h1 : ¬ k = KeyCode.shiftLeft) (h2 : ¬ k = KeyCode.controlLeft) :
    getFlag (onKeyDown s k).moveState k = true := by
  rcases k <;> first | rfl | exact absurd rfl h1 | exact absurd rfl h2

lemma onKeyUp_clears (s : CameraManager) (k : KeyCode)
    (h1 : ¬ k = KeyCode.shiftLeft) (h2 : ¬ k = KeyCode.controlLeft) :
    getFlag (onKeyUp s k).moveState k = false := by
  rcases k <;> first | rfl | exact absurd rfl h1 | exact absurd rfl h2

/-- C6 amended: for every key other than ShiftLeft and ControlLeft, the
keydown sets its flag and the keyup clears it whatever mode is active, and
mode switches preserve the whole moveState, so a flag set by a keydown is
cleared by the matching keyup across any interleaved mode switches.
ShiftLeft is mode-dependent by design, down in DRONE and the run modifier
in PERSON, so its down flag does not obey this. -/
theorem keyflags_mode_independent (m : CameraManager) (k : KeyCode) (ms : List Mode)
    (h1 : ¬ k = KeyCode.shiftLeft) (h2 : ¬ k = KeyCode.controlLeft) :
    getFlag (onKeyDown m k).moveState k = true ∧
    getFlag (onKeyUp m k).moveState k = false ∧
    (List.foldl switchMode m ms).moveState = m.moveState ∧
    getFlag (onKeyUp (List.foldl switchMode (onKeyDown m k) ms) k).moveState k = false :=
  ⟨onKeyDown_sets m k h1 h2, onKeyUp_clears m k h1 h2,
   foldl_switchMode_moveState ms m, onKeyUp_clears _ k h1 h2⟩

/-- Witness for C6 amended: the W key across a switch to PERSON. -/
theorem keyflags_mode_independent_witness :
    getFlag (onKeyDown (init 1) KeyCode.keyW).moveState KeyCode.keyW = true ∧
    getFlag (onKeyUp (init 1) KeyCode.keyW).moveState KeyCode.keyW = false ∧
    (List.foldl switchMode (init 1) [Mode.person]).moveState = (init 1).moveState ∧
    getFlag (onKeyUp (List.foldl switchMode (onKeyDown (init 1) KeyCode.keyW)
        [Mode.person]) KeyCode.keyW).moveState KeyCode.keyW = false :=
  keyflags_mode_independent (init 1) KeyCode.keyW [Mode.person] (by decide) (by decide)

/-- moveState after pressing W only. -/
def onlyForward : MoveState := { initialMoveState with forward := true }

/-- The controller state the C7 scenario runs through: fresh controller
with W held and the drone camera at the given z. -/
def droneForwardState (aspect z : ℝ) : CameraManager :=
  { init aspect with
      moveState := onlyForward,
      droneCamera := { fov := 75, aspect := aspect, near := 0.1, far := 1000,
                       position := ⟨0, 10, z⟩, quaternion := ⟨0, 0, 0, 1⟩ } }

lemma droneForward_step (a z : ℝ) :
    update (droneForwardState a z) (1/60) = droneForwardState a (z - 2/15) := by
  have h0 : (0:ℝ) ≤ Real.pi * 0.4 := by positivity
  rw [update_drone _ _ rfl, updateDroneCamera_eq _ _ rfl]
  simp [droneForwardState, init, onlyForward, initialMoveState, integrateYaw,
        integratePitch, applyPlanarMovement, applyVerticalMovement, addScaledMut,
        Vec3.add, Vec3.multiplyScalar, Vec3.applyAxisY, setFromEulerYXZ, flySpeed,
        min_eq_right h0, max_eq_right (neg_nonpos.mpr h0)]
  ring

lemma droneForward_iter (a z : ℝ) (n : ℕ) :
    (fun s => update s (1/60))^[n] (droneForwardState a z) =
      droneForwardState a (z - n * (2/15)) := by
  induction n generalizing z with
  | zero => simp
  | succ k iht =>
      simp only [Function.iterate_succ_apply]
      rw [droneForward_step a z, iht]
      congr 1
      push_cast
      ring

/-- C7: from the freshly constructed controller with only the forward flag
held, sixty updates at deltaTime 1/60 in DRONE mode move the drone camera
exactly 8 units along -Z, leaving x and y unchanged. -/
theorem drone_forward_scenario (aspect : ℝ) :
    ((fun s => update s (1/60))^[60]
        (step (init aspect) (Event.keyDown KeyCode.keyW))).droneCamera.position =
      ⟨(init aspect).droneCamera.position.x, (init aspect).droneCamera.position.y,
        (init aspect).droneCamera.position.z - 8⟩ := by
  have hstart : step (init aspect) (Event.keyDown KeyCode.keyW) =
      droneForwardState aspect 10 := rfl
  rw [hstart, droneForward_iter]
  simp [droneForwardState, init]
  norm_num

/-- Witness for C7 at aspect 1. -/
theorem drone_forward_scenario_witness :
    ((fun s => update s (1/60))^[60]
        (step (init 1) (Event.keyDown KeyCode.keyW))).droneCamera.position =
      ⟨(init 1).droneCamera.position.x, (init 1).droneCamera.position.y,
        (init 1).droneCamera.position.z - 8⟩ :=
  drone_forward_scenario 1

/-- The concrete state with PERSON active and both W and S held. -/
def stateWS : CameraManager :=
  step (step (step (init 1) (Event.switchMode Mode.person))
    (Event.keyDown KeyCode.keyW)) (Event.keyDown KeyCode.keyS)

/-- C2 evaluation at the failing input: with forward and backward both
held in PERSON mode at yaw 0, walk speed 5 and deltaTime 1/60, the forward
branch scales the direction vector in place to velocity times it, so the
backward branch adds -velocity times that mutated vector: the camera z
moves by -1/12 + 1/144 instead of the cancellation to zero that the
independent-flag sum predicts. -/
theorem forward_backward_no_cancel :
    (update stateWS (1/60)).personCamera.position.z = 5 - 1/12 + 1/144 ∧
    stateWS.personCamera.position.z = 5 ∧
    ¬ (5 - 1/12 + 1/144 : ℝ) = 5 := by
  have hmode : stateWS.currentMode = Mode.person := rfl
  refine ⟨?_, rfl, by norm_num⟩
  rw [update_person _ _ hmode, updatePersonCamera_eq _ _ hmode]
  simp [stateWS, step, onKeyDown, switchMode, init, initialMoveState,
        applyPlanarMovement, integrateYaw, addScaledMut, Vec3.add,
        Vec3.multiplyScalar, Vec3.applyAxisY, walkSpeed, runSpeed, rotationSpeed,
        personHeight, Real.sin_zero, Real.cos_zero]
  ring

end HistoricCity
